import Mathlib

/-!
Verification of `image_metadata_extractor/metadata_extractor.py`.

The Python module is shallowly embedded below.  Python numbers (ints and the
floats that occur in EXIF/XMP records) are modelled as exact rationals: a
`PyQ` is an integer numerator together with a positive natural denominator,
and the arithmetic used by the source (`1 / x`, `x * 100`, `float(s)`,
comparisons, `int(x)`, `round`-to-even formatting) is defined on `PyQ`
without normalisation, so every operation reduces in the kernel.  Byte
payloads (the XMP APP1 segment) are modelled as `String`, and Python `dict`s
as association lists with first-match lookup and last-write-wins insertion.
Fallible Python code (expressions that can raise) is modelled with `Option`
or `Except`: a `none` / `.error` result stands for an uncaught exception.
-/

namespace MetadataExtractor

/-- Whitespace test used to model Python's `str.strip`, `str.split` and the
regex class `\s` (restricted to the ASCII whitespace that occurs in image
metadata). -/
def isPySpace (c : Char) : Bool := c.isWhitespace

/-- The regex word class `\w` (ASCII letters, digits and underscore). -/
def isWordChar (c : Char) : Bool := c.isAlphanum || c == '_'

/-- `l` with its leading and trailing whitespace removed; the list-level body
of Python's `str.strip()`. -/
def stripChars (l : List Char) : List Char :=
  ((l.dropWhile isPySpace).reverse.dropWhile isPySpace).reverse

/-- Python's `s.strip()`. -/
def pyStrip (s : String) : String := String.mk (stripChars s.data)

/-- Python's `s.lower()` (ASCII). -/
def pyLower (s : String) : String := String.mk (s.data.map Char.toLower)

/-- Decimal digit to character. -/
def digitChar (n : Nat) : Char := Char.ofNat (48 + n)

/-- Decimal digits of `n`, most significant first; `fuel` bounds the
recursion depth so that the definition is structural and kernel-reducible. -/
def natToDigits : Nat → Nat → List Char
  | 0, _ => []
  | fuel + 1, n =>
    if n < 10 then [digitChar n]
    else natToDigits fuel (n / 10) ++ [digitChar (n % 10)]

/-- Python's `str(n)` for a natural number. -/
def natToStr (n : Nat) : String := String.mk (natToDigits (n + 1) n)

/-- Python's `str(n)` for an integer. -/
def intToStr : Int → String
  | Int.ofNat n => natToStr n
  | Int.negSucc n => "-" ++ natToStr (n + 1)

/-- Exact rational model of a Python number: numerator over a positive
denominator, kept unnormalised so that all arithmetic reduces in the
kernel. -/
structure PyQ where
  num : Int
  den : Nat
deriving DecidableEq

/-- The rational `n / 1`. -/
def qOfInt (n : Int) : PyQ := ⟨n, 1⟩

/-- Value equality of two rationals (Python `==` on numbers), by
cross-multiplication. -/
def qEq (a b : PyQ) : Prop := a.num * (b.den : Int) = b.num * (a.den : Int)

instance (a b : PyQ) : Decidable (qEq a b) := by
  unfold qEq
  infer_instance

/-- Value order on rationals (Python `<` on numbers). -/
def qLt (a b : PyQ) : Prop := a.num * (b.den : Int) < b.num * (a.den : Int)

instance (a b : PyQ) : Decidable (qLt a b) := by
  unfold qLt
  infer_instance

/-- Python `a * b` on numbers. -/
def qMul (a b : PyQ) : PyQ := ⟨a.num * b.num, a.den * b.den⟩

/-- Python `a - b` on numbers. -/
def qSub (a b : PyQ) : PyQ :=
  ⟨a.num * (b.den : Int) - b.num * (a.den : Int), a.den * b.den⟩

/-- Python `a / b` on numbers, with the sign moved to the numerator so the
denominator stays nonnegative.  `b` with value `0` gives the junk result
`⟨0, 0⟩`; every use in the embedding is guarded exactly where the source
would raise `ZeroDivisionError`. -/
def qDiv (a b : PyQ) : PyQ :=
  if 0 ≤ b.num then ⟨a.num * (b.den : Int), a.den * b.num.toNat⟩
  else ⟨-(a.num * (b.den : Int)), a.den * (-b.num).toNat⟩

/-- Python `abs` on numbers. -/
def qAbs (a : PyQ) : PyQ := ⟨a.num.natAbs, a.den⟩

/-- Python `int(x)`: truncation toward zero (for a negative value, the
magnitude is divided and the sign restored, so `int(-2.5) = -2`). -/
def pyTrunc (a : PyQ) : Int :=
  if 0 ≤ a.num then (a.num.toNat / a.den : Nat)
  else -(((-a.num).toNat / a.den : Nat))

/-- Floor of a rational with positive denominator. -/
def qFloor (a : PyQ) : Int :=
  if 0 ≤ a.num then (a.num.toNat / a.den : Nat)
  else -((((-a.num).toNat + a.den - 1) / a.den : Nat))

/-- Round to the nearest integer, ties to even: the rounding used both by
Python's `round` and by `format(x, '.2f')`. -/
def roundHalfEven (a : PyQ) : Int :=
  let f := qFloor a
  let frac := qSub a (qOfInt f)
  if qLt frac ⟨1, 2⟩ then f
  else if qLt ⟨1, 2⟩ frac then f + 1
  else if Int.emod f 2 = 0 then f else f + 1

/-- Python's `f"{x:.2f}"` on the exact rational model: the value scaled by
100 is rounded half-to-even and printed with two decimals. -/
def formatFixed2 (q : PyQ) : String :=
  let c := roundHalfEven (qMul q (qOfInt 100))
  let a := c.natAbs
  (if qLt q (qOfInt 0) then "-" else "") ++
    natToStr (a / 100) ++ "." ++
    (if a % 100 < 10 then "0" else "") ++ natToStr (a % 100)

/-- Numeric value of a list of decimal digits. -/
def digitsToNat (l : List Char) : Nat :=
  l.foldl (fun a c => a * 10 + (c.toNat - 48)) 0

/-- Python's `float(s)` on strings, returning `none` where the source would
raise `ValueError`: surrounding whitespace is stripped, then an optional
sign, a decimal mantissa with at least one digit, and an optional exponent
are read, with no junk allowed after them.  The special spellings
(`inf`, `nan`, digit underscores) do not occur in image metadata and are
not modelled. -/
def pyFloat? (s : String) : Option PyQ :=
  let l := stripChars s.data
  let sl : Int × List Char :=
    match l with
    | '+' :: r => (1, r)
    | '-' :: r => (-1, r)
    | _ => (1, l)
  let ip := sl.2.takeWhile Char.isDigit
  let r1 := sl.2.dropWhile Char.isDigit
  let fr : List Char × List Char :=
    match r1 with
    | '.' :: r => (r.takeWhile Char.isDigit, r.dropWhile Char.isDigit)
    | _ => ([], r1)
  if ip = [] ∧ fr.1 = [] then none
  else
    let mant : PyQ :=
      ⟨sl.1 * ((digitsToNat ip * 10 ^ fr.1.length + digitsToNat fr.1 : Nat) : Int),
        10 ^ fr.1.length⟩
    match fr.2 with
    | [] => some mant
    | e :: r3 =>
      if e = 'e' ∨ e = 'E' then
        let es : Int × List Char :=
          match r3 with
          | '+' :: r => (1, r)
          | '-' :: r => (-1, r)
          | _ => (1, r3)
        let ed := es.2.takeWhile Char.isDigit
        let r5 := es.2.dropWhile Char.isDigit
        if ed = [] ∨ r5 ≠ [] then none
        else if 0 ≤ es.1 then
          some ⟨mant.num * ((10 ^ digitsToNat ed : Nat) : Int), mant.den⟩
        else some ⟨mant.num, mant.den * 10 ^ digitsToNat ed⟩
      else none

/-- One pass of `re.sub("(.)([A-Z][a-z]+)", r"\1 \2", name)`: scan left to
right; at a character other than a newline followed by an ASCII uppercase
letter and at least one lowercase letter, emit the character, a space, the
uppercase letter and the maximal lowercase run, and resume scanning after
the match; otherwise advance one character.  `fuel` bounds the recursion
(the caller passes the string length) so the definition is structural. -/
def camelSub1 : Nat → List Char → List Char
  | 0, l => l
  | fuel + 1, l =>
    match l with
    | c :: d :: rest =>
      if (!(c == '\n')) && d.isUpper && (match rest with | r :: _ => r.isLower | [] => false) then
        c :: ' ' :: d ::
          (rest.takeWhile Char.isLower ++ camelSub1 fuel (rest.dropWhile Char.isLower))
      else c :: camelSub1 fuel (d :: rest)
    | l => l

/-- `re.sub("([a-z0-9])([A-Z])", r"\1 \2", name)`: insert a space between an
ASCII lowercase letter or digit and an uppercase letter, resuming after each
match. -/
def camelSub2 : List Char → List Char
  | c :: d :: rest =>
    if (c.isLower ∨ c.isDigit) ∧ d.isUpper then c :: ' ' :: d :: camelSub2 rest
    else c :: camelSub2 (d :: rest)
  | l => l

/-- Python's `str.title()` (ASCII): the first letter after a non-letter is
uppercased, every other letter is lowercased. -/
def titleChars : Bool → List Char → List Char
  | _, [] => []
  | prevAlpha, c :: cs =>
    if c.isAlpha then
      (if prevAlpha then c.toLower else c.toUpper) :: titleChars true cs
    else c :: titleChars false cs

/-- `camel_to_standard` from the source: the two regex substitutions
followed by `.title()`. -/
def camel_to_standard (name : String) : String :=
  String.mk (titleChars false (camelSub2 (camelSub1 name.data.length name.data)))

/-- Python's `key.replace("2012", "")`: remove every occurrence of the
substring `2012`, scanning left to right. -/
def remove2012 : List Char → List Char
  | '2' :: '0' :: '1' :: '2' :: rest => remove2012 rest
  | c :: rest => c :: remove2012 rest
  | [] => []

/-- The humanised label used for a post-processing key. -/
def displayKey (key : String) : String :=
  camel_to_standard (String.mk (remove2012 key.data))

/-- Splits a string (with some leading gap of non-word characters removed by
the caller) into runs `(word, following gap)`, where a word is a maximal
`\w+` run and a gap a maximal run of non-word characters (empty only at the
very end).  `true` means a word is being accumulated (in `wrev`, reversed),
`false` that a gap is being accumulated (in `grev`). -/
def wordRunsAux : Bool → List Char → List Char → List Char → List (List Char × List Char)
  | true, wrev, _, [] => [(wrev.reverse, [])]
  | true, wrev, grev, c :: cs =>
    if isWordChar c then wordRunsAux true (c :: wrev) grev cs
    else wordRunsAux false wrev [c] cs
  | false, wrev, grev, [] => [(wrev.reverse, grev.reverse)]
  | false, wrev, grev, c :: cs =>
    if isWordChar c then (wrev.reverse, grev.reverse) :: wordRunsAux true [c] [] cs
    else wordRunsAux false wrev (c :: grev) cs

/-- A string as a leading gap of non-word characters plus its word runs. -/
def toRuns (l : List Char) : List Char × List (List Char × List Char) :=
  match l.dropWhile (fun c => !(isWordChar c)) with
  | [] => (l.takeWhile (fun c => !(isWordChar c)), [])
  | c :: cs => (l.takeWhile (fun c => !(isWordChar c)), wordRunsAux true [c] [] cs)

/-- Collapsing step of `re.sub(r"\b(\w+)(\s+\1)+\b", r"\1", camera)`: a word
followed by a purely-whitespace gap and the same word again loses the gap
and the repetition, greedily and left to right (exactly the matches of the
regex, since `\w+` can only bind a whole word and `\s+` a whole gap). -/
def collapseRunsAux : List Char → List Char → List (List Char × List Char) → List (List Char × List Char)
  | w, g, [] => [(w, g)]
  | w, g, (w', g') :: rest =>
    if w' = w ∧ g ≠ [] ∧ g.all isPySpace then collapseRunsAux w g' rest
    else (w, g) :: collapseRunsAux w' g' rest

/-- Collapse duplicate adjacent words in a run list. -/
def collapseRuns : List (List Char × List Char) → List (List Char × List Char)
  | [] => []
  | (w, g) :: rest => collapseRunsAux w g rest

/-- Rebuild a string from word runs. -/
def renderRuns : List (List Char × List Char) → List Char :=
  List.foldr (fun p acc => p.1 ++ p.2 ++ acc) []

/-- `re.sub(r"\b(\w+)(\s+\1)+\b", r"\1", s)` — the duplicate-word removal
applied to the camera line. -/
def collapseDupWords (s : String) : String :=
  let r := toRuns s.data
  String.mk (r.1 ++ renderRuns (collapseRuns r.2))

/-- Python's `s.split()` (no separator): split on maximal whitespace runs,
discarding empty fields.  `none` means whitespace is being skipped,
`some tokrev` that a token is being accumulated (reversed). -/
def splitWsAux : Option (List Char) → List Char → List (List Char)
  | some t, [] => [t.reverse]
  | none, [] => []
  | some t, c :: cs =>
    if isPySpace c then t.reverse :: splitWsAux none cs
    else splitWsAux (some (c :: t)) cs
  | none, c :: cs =>
    if isPySpace c then splitWsAux none cs
    else splitWsAux (some [c]) cs

/-- Python's `s.split()` on strings. -/
def pySplitWs (s : String) : List String :=
  (splitWsAux none s.data).map String.mk

/-- `date.replace(":", "-")` — the pattern is a single character, so the
replacement is a character map. -/
def colonToDash (s : String) : String :=
  String.mk (s.data.map (fun c => if c = ':' then '-' else c))

/-- A scalar EXIF value: a string, or a number together with the text that
Python's `str()` produces for it (`"2"` for the int `2`, `"85.0"` for the
float `85.0`); the rendering of a float is a function of the value that is
delegated to this field rather than re-deriving Python's shortest-roundtrip
repr algorithm. -/
inductive PyVal where
  | str (s : String)
  | num (q : PyQ) (rep : String)
deriving DecidableEq

/-- Python `str(v)` / f-string interpolation of an EXIF value. -/
def pyValStr : PyVal → String
  | .str s => s
  | .num _ rep => rep

/-- Python `v == 0` on an EXIF value (a string never equals a number). -/
def pyValIsZero : PyVal → Bool
  | .str _ => false
  | .num q _ => decide (qEq q (qOfInt 0))

/-- An EXIF record: tag name to scalar value. -/
abbrev ExifDict := List (String × PyVal)

/-- An XMP record: local name to string value. -/
abbrev XmpDict := List (String × String)

/-- Python `d[k]` / `k in d`: first-match association-list lookup. -/
def dictGet {β : Type} (d : List (String × β)) (k : String) : Option β :=
  match d with
  | [] => none
  | (k', v) :: rest => if k' = k then some v else dictGet rest k

/-- Python `d[k] = v`: replace the value at an existing key in place, else
append the new binding (insertion order is preserved, as in a `dict`). -/
def dictInsert {β : Type} (d : List (String × β)) (k : String) (v : β) : List (String × β) :=
  match d with
  | [] => [(k, v)]
  | (k', v') :: rest =>
    if k' = k then (k, v) :: rest else (k', v') :: dictInsert rest k v

/-- Modelled from the spec: `EXPOSURE_PROGRAMS` lives in
`image_metadata_extractor/constants.py`, which is not among the provided
sources.  The spec (§4.2 rule 3) calls it "a fixed enumeration table"
mapping the numeric exposure-program code to a mode name with default
"Unknown"; the entries follow the standard EXIF exposure-program
enumeration, matching the repository test that expects code `1` to render
as "Manual". -/
def EXPOSURE_PROGRAMS : List (Int × String) :=
  [(0, "Not defined"), (1, "Manual"), (2, "Normal program"),
   (3, "Aperture priority"), (4, "Shutter priority"), (5, "Creative program"),
   (6, "Action program"), (7, "Portrait mode"), (8, "Landscape mode")]

/-- `EXPOSURE_PROGRAMS.get(value, "Unknown")`: dictionary lookup by numeric
equality (Python hashes `1.0` and `1` alike; a string value never matches an
integer key). -/
def exposureProgramName (v : PyVal) : String :=
  match v with
  | .str _ => "Unknown"
  | .num q _ =>
    match EXPOSURE_PROGRAMS.find? (fun p => decide (qEq q (qOfInt p.1))) with
    | some p => p.2
    | none => "Unknown"

/-- Modelled from the spec: `POST_PROCESSING_KEYS` lives in
`image_metadata_extractor/constants.py`, which is not among the provided
sources.  The spec (§4.2 rule 5) describes "a fixed allow-list of
post-processing keys (contrast, highlights, shadows, whites, blacks,
texture, clarity, vibrance, saturation, sharpness, noise reduction,
color-grade and defringe parameters, parametric split points, perspective
scale, tone-curve name, etc.)"; the list below follows that enumeration and
the keys exercised by the repository's tests. -/
def POST_PROCESSING_KEYS : List String :=
  ["Exposure", "Contrast", "Highlights", "Shadows", "Whites", "Blacks",
   "Texture", "Clarity2012", "Vibrance", "Saturation",
   "ParametricShadowSplit", "ParametricMidtoneSplit",
   "ParametricHighlightSplit", "Sharpness", "ColorNoiseReduction",
   "ColorGradeBlending", "DefringePurpleHueLo", "DefringePurpleHueHi",
   "DefringeGreenHueLo", "DefringeGreenHueHi", "PerspectiveScale",
   "ToneCurveName2012"]

/-- `format_camera_settings`: the camera line with adjacent duplicate words
collapsed, plus the lens line; missing tags render as the empty string. -/
def format_camera_settings (xmp_data : XmpDict) (exif_data : ExifDict) : String :=
  let make := (dictGet exif_data "Make").elim "" pyValStr
  let model := (dictGet exif_data "Model").elim "" pyValStr
  let camera := collapseDupWords (make ++ " " ++ model)
  let lens := (dictGet exif_data "LensModel").elim "" pyValStr
  pyStrip ("Camera: " ++ pyStrip camera ++ "\nLens: " ++ lens)

/-- The lines accumulated by `format_settings`, before the final `strip`;
`none` models an uncaught exception: a `TypeError` when `ExposureTime` is a
string compared against `1`, or a `ZeroDivisionError` from `1 /
shutter_speed` when the value is numerically zero (the `value < 1` guard
admits `0`). -/
def settings_lines (exif_data : ExifDict) : Option (List String) :=
  let l1 : List String :=
    match dictGet exif_data "FNumber" with
    | some v => ["Aperture: f/" ++ pyValStr v]
    | none => []
  let l2? : Option (List String) :=
    match dictGet exif_data "ExposureTime" with
    | some (.num q rep) =>
      if qLt q (qOfInt 1) then
        if qEq q (qOfInt 0) then none
        else some ["Shutter Speed: 1/" ++ intToStr (pyTrunc (qDiv (qOfInt 1) q)) ++ " sec"]
      else some ["Shutter Speed: " ++ rep ++ " sec"]
    | some (.str _) => none
    | none => some []
  let l3 : List String :=
    match dictGet exif_data "ISOSpeedRatings" with
    | some v => ["ISO: " ++ pyValStr v]
    | none => []
  let l4 : List String :=
    match dictGet exif_data "FocalLength" with
    | some v => ["Focal Length: " ++ pyValStr v ++ " mm"]
    | none => []
  match l2? with
  | none => none
  | some l2 => some (l1 ++ l2 ++ l3 ++ l4)

/-- `format_settings`: aperture, shutter speed, ISO and focal length. -/
def format_settings (xmp_data : XmpDict) (exif_data : ExifDict) : Option String :=
  (settings_lines exif_data).map
    (fun ls => pyStrip (String.join (ls.map (fun l => l ++ "\n"))))

/-- `format_tech_details`: exposure program and white balance. -/
def format_tech_details (xmp_data : XmpDict) (exif_data : ExifDict) : String :=
  let l1 : List String :=
    match dictGet exif_data "ExposureProgram" with
    | some v => ["Shot in " ++ exposureProgramName v ++ " mode"]
    | none => []
  let l2 : List String :=
    match dictGet exif_data "WhiteBalance" with
    | some v => ["White Balance: " ++ (if pyValIsZero v then "Auto" else "Manual")]
    | none => []
  pyStrip (String.join ((l1 ++ l2).map (fun l => l ++ "\n")))

/-- The four crop-edge keys, in the order of the source. -/
def cropKeys : List String := ["CropLeft", "CropRight", "CropTop", "CropBottom"]

/-- The percentage computed for one crop key: left/top scale the fraction,
right/bottom its complement. -/
def cropPercentage (key : String) (v : PyQ) : PyQ :=
  if key = "CropLeft" ∨ key = "CropTop" then qMul v (qOfInt 100)
  else qMul (qSub (qOfInt 1) v) (qOfInt 100)

/-- The loop body of `format_crop_info` for one key: `none` models the
uncaught `ValueError` of `float(xmp_data[key])`; `some none` means no line;
`some (some line)` an emitted line. -/
def crop_line (xmp_data : XmpDict) (key : String) : Option (Option String) :=
  match dictGet xmp_data key with
  | none => some none
  | some s =>
    match pyFloat? s with
    | none => none
    | some v =>
      let percentage := cropPercentage key v
      if qLt ⟨1, 10⟩ (qAbs percentage) then
        some (some (String.mk (key.data.drop 4) ++ ": " ++ formatFixed2 percentage ++ "% cropped"))
      else some none

/-- `format_crop_info`: the four crop keys in order, suppressing
percentages of at most 0.1 in absolute value. -/
def format_crop_info (xmp_data : XmpDict) (exif_data : ExifDict) : Option String :=
  match crop_line xmp_data "CropLeft", crop_line xmp_data "CropRight",
      crop_line xmp_data "CropTop", crop_line xmp_data "CropBottom" with
  | some a, some b, some c, some d =>
    some (pyStrip (String.join (([a, b, c, d].filterMap id).map (fun l => l ++ "\n"))))
  | _, _, _, _ => none

/-- The loop body of `format_post_processing` for one key: numeric values
are shown when nonzero, except that `PerspectiveScale` is skipped when
`int(float(value)) == 100`; non-numeric values are shown unless their
lowercase form is `"0"`, `"false"`, `"none"` or `""`. -/
def post_processing_line (xmp_data : XmpDict) (key : String) : Option String :=
  match dictGet xmp_data key with
  | none => none
  | some value =>
    match pyFloat? value with
    | some float_value =>
      if key = "PerspectiveScale" ∧ pyTrunc float_value = 100 then none
      else if ¬ qEq float_value (qOfInt 0) then some (displayKey key ++ ": " ++ value)
      else none
    | none =>
      if pyLower value = "0" ∨ pyLower value = "false" ∨ pyLower value = "none" ∨
          pyLower value = "" then none
      else some (displayKey key ++ ": " ++ value)

/-- `format_post_processing`: the creator-tool line plus one line per
allow-listed key that survives the suppression rules. -/
def format_post_processing (xmp_data : XmpDict) (exif_data : ExifDict) : String :=
  let creator :=
    match dictGet xmp_data "CreatorTool" with
    | some t => "Edited in " ++ t ++ "\n"
    | none => ""
  pyStrip (creator ++
    String.join ((POST_PROCESSING_KEYS.filterMap (post_processing_line xmp_data)).map
      (fun l => l ++ "\n")))

/-- `format_capture_date`: `none` models the uncaught exception when the
tag value is not a string (`.split()` on a non-string) or does not split
into exactly two fields (tuple unpacking). -/
def format_capture_date (xmp_data : XmpDict) (exif_data : ExifDict) : Option String :=
  match dictGet exif_data "DateTimeOriginal" with
  | none => some ""
  | some (.num _ _) => none
  | some (.str s) =>
    match pySplitWs s with
    | [date, time] => some ("Captured on " ++ colonToDash date ++ " at " ++ time)
    | _ => none

/-- The section table of `format_image_metadata`, in source order: title and
renderer (total renderers lifted into `Option`). -/
def sectionTable : List (String × (XmpDict → ExifDict → Option String)) :=
  [("📸 Camera Settings Breakdown 📸", fun x e => some (format_camera_settings x e)),
   ("📊 Settings", format_settings),
   ("🔍 Tech Details", fun x e => some (format_tech_details x e)),
   ("✂️ Crop Info", format_crop_info),
   ("✨ Post-Processing", fun x e => some (format_post_processing x e)),
   ("📅 Capture Date", format_capture_date)]

/-- The accumulation loop of `format_image_metadata`: each section with
nonempty content contributes its title line and content; an exception in a
section renderer aborts the whole call. -/
def renderSections (l : List (String × (XmpDict → ExifDict → Option String)))
    (x : XmpDict) (e : ExifDict) : Option String :=
  match l with
  | [] => some ""
  | (title, f) :: rest =>
    match f x e with
    | none => none
    | some content =>
      match renderSections rest x e with
      | none => none
      | some r =>
        some ((if content ≠ "" then title ++ "\n" ++ content ++ "\n" else "") ++ r)

/-- Python truthiness of an optional record: `None` and the empty dict are
falsy. -/
def pyTruthy {β : Type} (d : Option (List (String × β))) : Bool :=
  match d with
  | none => false
  | some [] => false
  | some (_ :: _) => true

/-- `format_image_metadata`: the sentinel when both records are falsy, else
the six sections in fixed order, each prefixed by its title and omitted
when empty, with the result stripped. -/
def format_image_metadata (xmp_data : Option XmpDict) (exif_data : Option ExifDict) :
    Option String :=
  if pyTruthy xmp_data = false ∧ pyTruthy exif_data = false then
    some "No metadata present"
  else
    (renderSections sectionTable (xmp_data.getD []) (exif_data.getD [])).map pyStrip

/-- The list of `(title, content)` pairs that `format_image_metadata`
renders: the sections evaluated in table order, keeping exactly those with
nonempty content (`none` when some section renderer raises). -/
def evalSections (l : List (String × (XmpDict → ExifDict → Option String)))
    (x : XmpDict) (e : ExifDict) : Option (List (String × String)) :=
  match l with
  | [] => some []
  | (title, f) :: rest =>
    match f x e with
    | none => none
    | some content =>
      match evalSections rest x e with
      | none => none
      | some r => some (if content ≠ "" then (title, content) :: r else r)

theorem string_data_append (a b : String) : (a ++ b).data = a.data ++ b.data := rfl

theorem mk_data (s : String) : String.mk s.data = s := rfl

theorem pyStrip_data (s : String) : (pyStrip s).data = stripChars s.data := rfl

/-- Stripping keeps a non-whitespace head character in place. -/
theorem stripChars_cons_head (c : Char) (t : List Char) (hc : isPySpace c = false) :
    ∃ m, stripChars (c :: t) = c :: m := by
  unfold stripChars
  rw [List.dropWhile_cons_of_neg (by simp [hc]), List.reverse_cons, List.dropWhile_append]
  by_cases h : (t.reverse.dropWhile isPySpace).isEmpty
  · simp only [h, if_true]
    rw [List.dropWhile_cons_of_neg (by simp [hc])]
    exact ⟨[], by simp⟩
  · simp only [h, if_false]
    exact ⟨(t.reverse.dropWhile isPySpace).reverse, by simp⟩

/-- A newline with some non-whitespace character before it and some
non-whitespace character after it survives stripping. -/
theorem newline_mem_stripChars (u v : List Char)
    (hu : ∃ a ∈ u, isPySpace a = false) (hv : ∃ b ∈ v, isPySpace b = false) :
    '\n' ∈ stripChars (u ++ '\n' :: v) := by
  obtain ⟨a, ha, hna⟩ := hu
  obtain ⟨b, hb, hnb⟩ := hv
  have hu' : u.dropWhile isPySpace ≠ [] := by
    rw [Ne, List.dropWhile_eq_nil_iff]
    intro h
    exact absurd (h a ha) (by simp [hna])
  have hv' : v.reverse.dropWhile isPySpace ≠ [] := by
    rw [Ne, List.dropWhile_eq_nil_iff]
    intro h
    exact absurd (h b (by simp [hb])) (by simp [hnb])
  unfold stripChars
  rw [List.dropWhile_append]
  simp only [List.isEmpty_iff, hu', if_false]
  rw [List.reverse_append, List.reverse_cons, List.append_assoc, List.dropWhile_append]
  by_cases h2 : (v.reverse.dropWhile isPySpace).isEmpty
  · exact absurd (List.isEmpty_iff.mp h2) hv'
  · simp [h2]

/-- The camera section always starts with the letter `C`: its renderer
prefixes the literal `Camera: `. -/
theorem format_camera_settings_head (x : XmpDict) (e : ExifDict) :
    ∃ m, (format_camera_settings x e).data = 'C' :: m := by
  unfold format_camera_settings
  obtain ⟨m, hm⟩ := stripChars_cons_head 'C'
    (("amera: " ++ pyStrip (collapseDupWords
        ((dictGet e "Make").elim "" pyValStr ++ " " ++ (dictGet e "Model").elim "" pyValStr)) ++
      "\nLens: " ++ (dictGet e "LensModel").elim "" pyValStr).data) (by decide)
  refine ⟨m, ?_⟩
  rw [pyStrip_data]
  exact hm

/-- The camera section content is never empty. -/
theorem format_camera_settings_ne (x : XmpDict) (e : ExifDict) :
    format_camera_settings x e ≠ "" := by
  obtain ⟨m, hm⟩ := format_camera_settings_head x e
  intro h
  rw [h] at hm
  exact absurd hm (by simp [String.data])

/-- Rendering the section table always yields, on success, the camera title,
a newline, the camera content, a newline, and the remaining sections. -/
theorem renderSections_shape (x : XmpDict) (e : ExifDict) (out : String)
    (h : renderSections sectionTable x e = some out) :
    ∃ r, out.data = "📸 Camera Settings Breakdown 📸".data ++
      '\n' :: ((format_camera_settings x e).data ++ '\n' :: r) := by
  rw [sectionTable] at h
  rw [renderSections] at h
  simp only at h
  cases hr : renderSections
      [("📊 Settings", format_settings),
       ("🔍 Tech Details", fun x e => some (format_tech_details x e)),
       ("✂️ Crop Info", format_crop_info),
       ("✨ Post-Processing", fun x e => some (format_post_processing x e)),
       ("📅 Capture Date", format_capture_date)] x e with
  | none => rw [hr] at h; exact absurd h (by simp)
  | some rest =>
    rw [hr] at h
    simp only [if_pos (format_camera_settings_ne x e), Option.some_inj] at h
    refine ⟨rest.data, ?_⟩
    rw [← h]
    simp [string_data_append]

theorem string_foldl_append (l : List String) (a b : String) :
    List.foldl (fun r s => r ++ s) (a ++ b) l = a ++ List.foldl (fun r s => r ++ s) b l := by
  induction l generalizing b with
  | nil => rfl
  | cons s t ih =>
    simp only [List.foldl_cons]
    rw [String.append_assoc, ih]

theorem string_join_cons (s : String) (l : List String) :
    String.join (s :: l) = s ++ String.join l := by
  unfold String.join
  simp only [List.foldl_cons]
  rw [String.empty_append, ← String.append_empty s, string_foldl_append,
    String.append_empty]

/-- `renderSections` is the join of the `(title, content)` list collected by
`evalSections`. -/
theorem renderSections_eq_evalSections
    (l : List (String × (XmpDict → ExifDict → Option String)))
    (x : XmpDict) (e : ExifDict) :
    renderSections l x e = (evalSections l x e).map
      (fun cs => String.join (cs.map (fun p => p.1 ++ "\n" ++ p.2 ++ "\n"))) := by
  induction l with
  | nil => rfl
  | cons tf rest ih =>
    obtain ⟨title, f⟩ := tf
    rw [renderSections, evalSections]
    cases hf : f x e with
    | none => simp
    | some content =>
      simp only
      cases hr : evalSections rest x e with
      | none => rw [ih, hr]; simp
      | some r =>
        rw [ih, hr]
        by_cases hc : content ≠ ""
        · simp only [Option.map_some', if_pos hc, List.map_cons]
          rw [string_join_cons]
        · simp only [Option.map_some', if_neg hc]
          rw [String.empty_append]

/-- Every pair collected by `evalSections` has nonempty content produced by
the renderer that the table associates with its title. -/
theorem evalSections_mem
    (l : List (String × (XmpDict → ExifDict → Option String)))
    (x : XmpDict) (e : ExifDict) (cs : List (String × String))
    (h : evalSections l x e = some cs) :
    ∀ p ∈ cs, p.2 ≠ "" ∧ ∃ f, (p.1, f) ∈ l ∧ f x e = some p.2 := by
  induction l generalizing cs with
  | nil =>
    rw [evalSections] at h
    simp only [Option.some_inj] at h
    subst h
    intro p hp
    exact absurd hp (by simp)
  | cons tf rest ih =>
    obtain ⟨title, f⟩ := tf
    rw [evalSections] at h
    cases hf : f x e with
    | none => rw [hf] at h; exact absurd h (by simp)
    | some content =>
      rw [hf] at h
      simp only at h
      cases hr : evalSections rest x e with
      | none => rw [hr] at h; exact absurd h (by simp)
      | some r =>
        rw [hr] at h
        simp only [Option.some_inj] at h
        intro p hp
        by_cases hc : content ≠ ""
        · rw [if_pos hc] at h
          subst h
          rcases List.mem_cons.mp hp with h1 | h2
          · subst h1
            exact ⟨hc, f, by simp, hf⟩
          · obtain ⟨hne, g, hg, hgv⟩ := ih r hr p h2
            exact ⟨hne, g, by simp [hg], hgv⟩
        · rw [if_neg hc] at h
          subst h
          obtain ⟨hne, g, hg, hgv⟩ := ih r hr p hp
          exact ⟨hne, g, by simp [hg], hgv⟩

/-- Claim C1: for every pair of inputs in which both records are absent or
empty, `format_image_metadata` returns exactly the string
`No metadata present`; for every pair in which at least one record is
non-empty, it does not return that sentinel. -/
theorem claim1_sentinel (xmp_data : Option XmpDict) (exif_data : Option ExifDict) :
    (pyTruthy xmp_data = false ∧ pyTruthy exif_data = false →
      format_image_metadata xmp_data exif_data = some "No metadata present") ∧
    (pyTruthy xmp_data = true ∨ pyTruthy exif_data = true →
      format_image_metadata xmp_data exif_data ≠ some "No metadata present") := by
  constructor
  · intro h
    rw [format_image_metadata, if_pos h]
  · intro h
    have hcond : ¬ (pyTruthy xmp_data = false ∧ pyTruthy exif_data = false) := by
      rcases h with h | h <;> simp [h]
    rw [format_image_metadata, if_neg hcond]
    cases hro : renderSections sectionTable (xmp_data.getD []) (exif_data.getD []) with
    | none => simp
    | some out =>
      simp only [Option.map_some', Ne, Option.some_inj]
      intro habs
      obtain ⟨r, hshape⟩ :=
        renderSections_shape (xmp_data.getD []) (exif_data.getD []) out hro
      obtain ⟨m, hcam⟩ :=
        format_camera_settings_head (xmp_data.getD []) (exif_data.getD [])
      have hnl : '\n' ∈ stripChars out.data := by
        rw [hshape]
        apply newline_mem_stripChars
        · exact ⟨'📸', by decide, by decide⟩
        · refine ⟨'C', ?_, by decide⟩
          rw [hcam]
          simp
      rw [← pyStrip_data, habs] at hnl
      exact absurd hnl (by decide)

/-- Closed instance of C1: the sentinel appears exactly for empty inputs. -/
theorem claim1_sentinel_witness :
    format_image_metadata none none = some "No metadata present" ∧
    format_image_metadata (some [("CreatorTool", "X")]) none ≠ some "No metadata present" :=
  ⟨(claim1_sentinel none none).1 (by decide),
   (claim1_sentinel (some [("CreatorTool", "X")]) none).2 (Or.inl (by decide))⟩

/-- Claim C3: the report consists of the six sections evaluated in the fixed
order of the table (camera settings, settings, tech details, crop info,
post-processing, capture date); each emitted section is prefixed by its
title line, a section with no applicable data is omitted entirely, and
rendering is deterministic. -/
theorem claim3_sections (xmp_data : Option XmpDict) (exif_data : Option ExifDict)
    (report : String) :
    sectionTable.map Prod.fst =
      ["📸 Camera Settings Breakdown 📸", "📊 Settings", "🔍 Tech Details",
       "✂️ Crop Info", "✨ Post-Processing", "📅 Capture Date"] ∧
    (¬ (pyTruthy xmp_data = false ∧ pyTruthy exif_data = false) →
      format_image_metadata xmp_data exif_data = some report →
      ∃ cs : List (String × String),
        evalSections sectionTable (xmp_data.getD []) (exif_data.getD []) = some cs ∧
        (∀ p ∈ cs, p.2 ≠ "" ∧ ∃ f, (p.1, f) ∈ sectionTable ∧
          f (xmp_data.getD []) (exif_data.getD []) = some p.2) ∧
        report = pyStrip (String.join (cs.map (fun p => p.1 ++ "\n" ++ p.2 ++ "\n")))) ∧
    (∀ x2 e2, xmp_data = x2 → exif_data = e2 →
      format_image_metadata xmp_data exif_data = format_image_metadata x2 e2) := by
  refine ⟨rfl, ?_, ?_⟩
  · intro hcond h
    rw [format_image_metadata, if_neg hcond,
      renderSections_eq_evalSections] at h
    cases hev : evalSections sectionTable (xmp_data.getD []) (exif_data.getD []) with
    | none => rw [hev] at h; exact absurd h (by simp)
    | some cs =>
      rw [hev] at h
      simp only [Option.map_some', Option.some_inj] at h
      exact ⟨cs, rfl, evalSections_mem sectionTable _ _ cs hev, h.symm⟩
  · intro x2 e2 hx he
    subst hx
    subst he
    rfl

/-- Closed instance of C3 at a concrete input: the report is the join of
the nonempty titled sections. -/
theorem claim3_sections_witness :
    ∃ cs : List (String × String),
      evalSections sectionTable [("CreatorTool", "X")] [] = some cs ∧
      (∀ p ∈ cs, p.2 ≠ "" ∧ ∃ f, (p.1, f) ∈ sectionTable ∧
        f [("CreatorTool", "X")] [] = some p.2) ∧
      "📸 Camera Settings Breakdown 📸\nCamera: \nLens:\n✨ Post-Processing\nEdited in X" =
        pyStrip (String.join (cs.map (fun p => p.1 ++ "\n" ++ p.2 ++ "\n"))) :=
  (claim3_sections (some [("CreatorTool", "X")]) none
    "📸 Camera Settings Breakdown 📸\nCamera: \nLens:\n✨ Post-Processing\nEdited in X").2.1
    (by decide) (by decide)

/-- Closed counterexample to C2 as stated: for `ExposureTime = 0.6` the
code renders the truncated reciprocal `1/1`, not the nearest-integer
rounding `1/2` that the claim (`round(1/value)`) prescribes. -/
theorem claim2_counterexample :
    settings_lines [("ExposureTime", PyVal.num ⟨3, 5⟩ "0.6")] =
      some ["Shutter Speed: 1/1 sec"] ∧
    qLt ⟨3, 5⟩ (qOfInt 1) ∧
    roundHalfEven (qDiv (qOfInt 1) ⟨3, 5⟩) = 2 ∧
    ("Shutter Speed: 1/" ++ intToStr 2 ++ " sec") ∉ ["Shutter Speed: 1/1 sec"] := by
  refine ⟨by decide, by decide, by decide, by decide⟩

/-- Claim C2, amended: for a numeric `ExposureTime` value `v`, if `v < 1`
(and `v` is nonzero, else the call raises) the emitted line is
`Shutter Speed: 1/{int(1/v)} sec` with the reciprocal truncated toward
zero — not rounded to the nearest integer; if `v >= 1` the raw value is
rendered; `1/30` gives `1/30 sec` and `2` gives `2 sec`. -/
theorem claim2_shutter (exif_data : ExifDict) (q : PyQ) (rep : String)
    (hq : dictGet exif_data "ExposureTime" = some (PyVal.num q rep)) :
    (qLt q (qOfInt 1) → ¬ qEq q (qOfInt 0) →
      ∀ ls, settings_lines exif_data = some ls →
        ("Shutter Speed: 1/" ++ intToStr (pyTrunc (qDiv (qOfInt 1) q)) ++ " sec") ∈ ls) ∧
    (¬ qLt q (qOfInt 1) →
      ∀ ls, settings_lines exif_data = some ls →
        ("Shutter Speed: " ++ rep ++ " sec") ∈ ls) ∧
    settings_lines [("ExposureTime", PyVal.num ⟨1, 30⟩ "0.03333333333333333")] =
      some ["Shutter Speed: 1/30 sec"] ∧
    settings_lines [("ExposureTime", PyVal.num ⟨2, 1⟩ "2")] =
      some ["Shutter Speed: 2 sec"] ∧
    settings_lines [("ExposureTime", PyVal.num ⟨-2, 5⟩ "-0.4")] =
      some ["Shutter Speed: 1/-2 sec"] := by
  refine ⟨?_, ?_, by decide, by decide, by decide⟩
  · intro hlt hne ls hls
    rw [settings_lines] at hls
    simp only [hq, if_pos hlt, if_neg hne] at hls
    cases hls2 : dictGet exif_data "FNumber" <;>
      cases hls3 : dictGet exif_data "ISOSpeedRatings" <;>
        cases hls4 : dictGet exif_data "FocalLength" <;>
          · simp only [hls2, hls3, hls4] at hls
            simp only [Option.some_inj] at hls
            subst hls
            simp
  · intro hlt ls hls
    rw [settings_lines] at hls
    simp only [hq, if_neg hlt] at hls
    cases hls2 : dictGet exif_data "FNumber" <;>
      cases hls3 : dictGet exif_data "ISOSpeedRatings" <;>
        cases hls4 : dictGet exif_data "FocalLength" <;>
          · simp only [hls2, hls3, hls4] at hls
            simp only [Option.some_inj] at hls
            subst hls
            simp

/-- Closed instance of the amended C2 at `v = 1/30` and `v = 2`. -/
theorem claim2_shutter_witness :
    ("Shutter Speed: 1/" ++ intToStr (pyTrunc (qDiv (qOfInt 1) ⟨1, 30⟩)) ++ " sec") ∈
      ["Shutter Speed: 1/30 sec"] ∧
    ("Shutter Speed: " ++ "2" ++ " sec") ∈ ["Shutter Speed: 2 sec"] :=
  ⟨(claim2_shutter [("ExposureTime", PyVal.num ⟨1, 30⟩ "0.03333333333333333")]
      ⟨1, 30⟩ "0.03333333333333333" (by decide)).1 (by decide) (by decide)
      ["Shutter Speed: 1/30 sec"] (by decide),
   (claim2_shutter [("ExposureTime", PyVal.num ⟨2, 1⟩ "2")] ⟨2, 1⟩ "2"
      (by decide)).2.1 (by decide) ["Shutter Speed: 2 sec"] (by decide)⟩

/-- Claim C10: `format_settings` completes for every record whose
`ExposureTime` is absent or a nonzero number, and the `value < 1` guard
admits zero, for which `1 / shutter_speed` is a division by zero: a
numerically zero `ExposureTime` makes the call raise. -/
theorem claim10_settings_total (exif_data : ExifDict) :
    (dictGet exif_data "ExposureTime" = none →
      (format_settings [] exif_data).isSome = true) ∧
    (∀ q rep, dictGet exif_data "ExposureTime" = some (PyVal.num q rep) →
      ¬ qEq q (qOfInt 0) → (format_settings [] exif_data).isSome = true) ∧
    (∀ q rep, dictGet exif_data "ExposureTime" = some (PyVal.num q rep) →
      qEq q (qOfInt 0) → qLt q (qOfInt 1) → format_settings [] exif_data = none) := by
  refine ⟨?_, ?_, ?_⟩
  · intro h
    rw [format_settings, settings_lines]
    simp only [h]
    cases dictGet exif_data "FNumber" <;>
      cases dictGet exif_data "ISOSpeedRatings" <;>
        cases dictGet exif_data "FocalLength" <;> simp
  · intro q rep h hne
    rw [format_settings, settings_lines]
    simp only [h]
    by_cases hlt : qLt q (qOfInt 1)
    · simp only [if_pos hlt, if_neg hne]
      cases dictGet exif_data "FNumber" <;>
        cases dictGet exif_data "ISOSpeedRatings" <;>
          cases dictGet exif_data "FocalLength" <;> simp
    · simp only [if_neg hlt]
      cases dictGet exif_data "FNumber" <;>
        cases dictGet exif_data "ISOSpeedRatings" <;>
          cases dictGet exif_data "FocalLength" <;> simp
  · intro q rep h heq hlt
    rw [format_settings, settings_lines]
    simp only [h, if_pos hlt, if_pos heq]
    cases dictGet exif_data "FNumber" <;>
      cases dictGet exif_data "ISOSpeedRatings" <;>
        cases dictGet exif_data "FocalLength" <;> simp

/-- Closed instance of C10: settings succeed without `ExposureTime` and
with a nonzero one, and raise on a zero exposure time. -/
theorem claim10_settings_total_witness :
    (format_settings [] []).isSome = true ∧
    (format_settings [] [("ExposureTime", PyVal.num ⟨1, 30⟩ "x")]).isSome = true ∧
    format_settings [] [("ExposureTime", PyVal.num ⟨0, 1⟩ "0.0")] = none :=
  ⟨(claim10_settings_total []).1 (by decide),
   (claim10_settings_total [("ExposureTime", PyVal.num ⟨1, 30⟩ "x")]).2.1
      ⟨1, 30⟩ "x" (by decide) (by decide),
   (claim10_settings_total [("ExposureTime", PyVal.num ⟨0, 1⟩ "0.0")]).2.2
      ⟨0, 1⟩ "0.0" (by decide) (by decide) (by decide)⟩

theorem wordRunsAux_all_word (ds : List Char) : ∀ wrev g,
    (∀ c ∈ ds, isWordChar c = true) →
    wordRunsAux true wrev g ds = [(wrev.reverse ++ ds, [])] := by
  induction ds with
  | nil => intro wrev g h; simp [wordRunsAux]
  | cons d ds ih =>
    intro wrev g h
    rw [wordRunsAux, if_pos (h d (by simp)), ih (d :: wrev) g (fun c hc => h c (by simp [hc]))]
    simp

theorem wordRunsAux_leading_word (u : List Char) : ∀ wrev g t,
    (∀ c ∈ u, isWordChar c = true) →
    wordRunsAux true wrev g (u ++ ' ' :: t) =
      wordRunsAux false (u.reverse ++ wrev) [' '] t := by
  induction u with
  | nil =>
    intro wrev g t h
    rw [List.nil_append, wordRunsAux, if_neg (by decide)]
    simp
  | cons c u ih =>
    intro wrev g t h
    rw [List.cons_append, wordRunsAux, if_pos (h c (by simp)),
      ih (c :: wrev) g t (fun a ha => h a (by simp [ha]))]
    simp

theorem wordRunsAux_gap_to_word (d : Char) (ds wrev grev : List Char)
    (hd : isWordChar d = true) :
    wordRunsAux false wrev grev (d :: ds) =
      (wrev.reverse, grev.reverse) :: wordRunsAux true [d] [] ds := by
  rw [wordRunsAux, if_pos hd]

/-- The regex `\b(\w+)(\s+\1)+\b` collapses a doubled word: for any
nonempty all-word-character `w`, the camera-line substitution sends
`w w` to `w`. -/
theorem collapseDupWords_double (w : String) (hne : w.data ≠ [])
    (hw : ∀ c ∈ w.data, isWordChar c = true) :
    collapseDupWords (w ++ " " ++ w) = w := by
  obtain ⟨c, cs, hcs⟩ : ∃ c cs, w.data = c :: cs := by
    cases h : w.data with
    | nil => exact absurd h hne
    | cons c cs => exact ⟨c, cs, rfl⟩
  have hc : isWordChar c = true := hw c (by simp [hcs])
  have hcs2 : ∀ a ∈ cs, isWordChar a = true := fun a ha => hw a (by simp [hcs, ha])
  have hdata : (w ++ " " ++ w).data = c :: (cs ++ ' ' :: (c :: cs)) := by
    simp [string_data_append, hcs]
  have hruns : toRuns ((w ++ " " ++ w).data) =
      ([], [(c :: cs, [' ']), (c :: cs, [])]) := by
    rw [hdata, toRuns]
    rw [List.dropWhile_cons_of_neg (by simp [hc])]
    rw [List.takeWhile_cons_of_neg (by simp [hc])]
    simp only
    rw [wordRunsAux_leading_word cs [c] [] (c :: cs) hcs2,
      wordRunsAux_gap_to_word c cs (cs.reverse ++ [c]) [' '] hc,
      wordRunsAux_all_word cs [c] [] hcs2]
    simp
  rw [collapseDupWords, hruns]
  simp only
  rw [collapseRuns, collapseRunsAux,
    if_pos ⟨rfl, by simp, by simp [isPySpace]⟩, collapseRunsAux]
  apply String.ext
  simp [renderRuns, hcs]

/-- Claim C6: the camera section renders `Camera: {Make} {Model}` with
immediately-adjacent duplicate words collapsed, followed by the
`Lens: {LensModel}` line; missing tags render as empty strings inside
their lines rather than omitting the lines. -/
theorem claim6_camera (xmp_data : XmpDict) (exif_data : ExifDict) :
    (∀ mk md ln, dictGet exif_data "Make" = some (PyVal.str mk) →
      dictGet exif_data "Model" = some (PyVal.str md) →
      dictGet exif_data "LensModel" = some (PyVal.str ln) →
      format_camera_settings xmp_data exif_data =
        pyStrip ("Camera: " ++ pyStrip (collapseDupWords (mk ++ " " ++ md)) ++
          "\nLens: " ++ ln)) ∧
    (∀ w : String, w.data ≠ [] → (∀ c ∈ w.data, isWordChar c = true) →
      collapseDupWords (w ++ " " ++ w) = w) ∧
    format_camera_settings [] [("Make", PyVal.str "Canon"), ("Model", PyVal.str "Canon")] =
      "Camera: Canon\nLens:" ∧
    (dictGet exif_data "Make" = none → dictGet exif_data "Model" = none →
      dictGet exif_data "LensModel" = none →
      format_camera_settings xmp_data exif_data =
        pyStrip ("Camera: " ++ pyStrip (collapseDupWords ("" ++ " " ++ "")) ++
          "\nLens: " ++ "")) := by
  refine ⟨?_, fun w => collapseDupWords_double w, by decide, ?_⟩
  · intro mk md ln h1 h2 h3
    rw [format_camera_settings]
    simp only [h1, h2, h3, Option.elim, pyValStr]
  · intro h1 h2 h3
    rw [format_camera_settings]
    simp only [h1, h2, h3, Option.elim]

/-- Closed instance of C6: the duplicated make/model collapse to one word
at a concrete record with all three tags present. -/
theorem claim6_camera_witness :
    format_camera_settings []
        [("Make", PyVal.str "Canon"), ("Model", PyVal.str "Canon"),
         ("LensModel", PyVal.str "EF85mm f/1.8 USM")] =
      pyStrip ("Camera: " ++ pyStrip (collapseDupWords ("Canon" ++ " " ++ "Canon")) ++
        "\nLens: " ++ "EF85mm f/1.8 USM") ∧
    collapseDupWords ("Canon" ++ " " ++ "Canon") = "Canon" :=
  ⟨(claim6_camera []
      [("Make", PyVal.str "Canon"), ("Model", PyVal.str "Canon"),
       ("LensModel", PyVal.str "EF85mm f/1.8 USM")]).1
      "Canon" "Canon" "EF85mm f/1.8 USM" (by decide) (by decide) (by decide),
   (claim6_camera [] []).2.1 "Canon" (by decide) (by decide)⟩

theorem splitWsAux_accum (u : List Char) : ∀ tokrev rest,
    (∀ c ∈ u, isPySpace c = false) →
    splitWsAux (some tokrev) (u ++ rest) =
      splitWsAux (some (u.reverse ++ tokrev)) rest := by
  induction u with
  | nil => intro tokrev rest h; simp
  | cons c u ih =>
    intro tokrev rest h
    rw [List.cons_append, splitWsAux, if_neg (by simp [h c (by simp)]),
      ih (c :: tokrev) rest (fun a ha => h a (by simp [ha]))]
    simp

theorem splitWsAux_single (t : List Char) (c : Char)
    (hc : isPySpace c = false) (ht : ∀ a ∈ t, isPySpace a = false) :
    splitWsAux none (c :: t) = [c :: t] := by
  rw [splitWsAux, if_neg (by simp [hc]),
    show t = t ++ [] by simp, splitWsAux_accum t [c] [] ht]
  rw [splitWsAux]
  simp

/-- Python's `.split()` on a two-field string separated by one space gives
exactly the two fields. -/
theorem pySplitWs_two (d t : String) (hd : d.data ≠ []) (ht : t.data ≠ [])
    (hd2 : ∀ c ∈ d.data, isPySpace c = false)
    (ht2 : ∀ c ∈ t.data, isPySpace c = false) :
    pySplitWs (d ++ " " ++ t) = [d, t] := by
  obtain ⟨c, cs, hcs⟩ : ∃ c cs, d.data = c :: cs := by
    cases h : d.data with
    | nil => exact absurd h hd
    | cons c cs => exact ⟨c, cs, rfl⟩
  have hc : isPySpace c = false := hd2 c (by simp [hcs])
  have hcs2 : ∀ a ∈ cs, isPySpace a = false := fun a ha => hd2 a (by simp [hcs, ha])
  have hdata : (d ++ " " ++ t).data = c :: (cs ++ ' ' :: t.data) := by
    simp [string_data_append, hcs]
  rw [pySplitWs, hdata, splitWsAux, if_neg (by simp [hc]),
    splitWsAux_accum cs [c] (' ' :: t.data) hcs2, splitWsAux, if_pos (by decide)]
  cases htt : t.data with
  | nil => exact absurd htt ht
  | cons b bs =>
    rw [splitWsAux_single bs b (ht2 b (by simp [htt]))
      (fun a ha => ht2 a (by simp [htt, ha]))]
    simp only [List.map_cons, List.map_nil, List.reverse_append,
      List.reverse_reverse, List.reverse_cons, List.reverse_nil,
      List.nil_append, List.singleton_append]
    rw [← hcs, ← htt, mk_data, mk_data]

/-- Claim C7: a present `DateTimeOriginal` of the form `date time` is split
on whitespace, the date's colons become hyphens, and the result is
`Captured on {date} at {time}`; an absent tag gives the empty string. -/
theorem claim7_capture_date (xmp_data : XmpDict) (exif_data : ExifDict) :
    (dictGet exif_data "DateTimeOriginal" = none →
      format_capture_date xmp_data exif_data = some "") ∧
    (∀ d t : String, d.data ≠ [] → t.data ≠ [] →
      (∀ c ∈ d.data, isPySpace c = false) → (∀ c ∈ t.data, isPySpace c = false) →
      dictGet exif_data "DateTimeOriginal" = some (PyVal.str (d ++ " " ++ t)) →
      format_capture_date xmp_data exif_data =
        some ("Captured on " ++ colonToDash d ++ " at " ++ t)) ∧
    format_capture_date [] [("DateTimeOriginal", PyVal.str "2024:07:30 22:12:59")] =
      some "Captured on 2024-07-30 at 22:12:59" := by
  refine ⟨?_, ?_, by decide⟩
  · intro h
    rw [format_capture_date, h]
  · intro d t hd ht hd2 ht2 hkey
    rw [format_capture_date, hkey]
    simp only
    rw [pySplitWs_two d t hd ht hd2 ht2]

/-- Closed instance of C7 through the general split path. -/
theorem claim7_capture_date_witness :
    format_capture_date [] [("DateTimeOriginal", PyVal.str ("2024:07:30" ++ " " ++ "22:12:59"))] =
      some ("Captured on " ++ colonToDash "2024:07:30" ++ " at " ++ "22:12:59") :=
  (claim7_capture_date [] [("DateTimeOriginal", PyVal.str ("2024:07:30" ++ " " ++ "22:12:59"))]).2.1
    "2024:07:30" "22:12:59" (by decide) (by decide) (by decide) (by decide) (by decide)

/-- Claim C5: for each crop key present with fraction `v` in `[0, 1]`, the
rendered percentage is `v*100` for left/top and `(1-v)*100` for
right/bottom; a line `{key without Crop}: {percentage to two decimals}%
cropped` is emitted exactly when the absolute percentage exceeds `0.1`;
`CropLeft = "0.3333"` gives `Left: 33.33% cropped`. -/
theorem claim5_crop (xmp_data : XmpDict) (key s : String) (v : PyQ)
    (hkey : key ∈ cropKeys) (hs : dictGet xmp_data key = some s)
    (hv : pyFloat? s = some v)
    (h0 : ¬ qLt v (qOfInt 0)) (h1 : ¬ qLt (qOfInt 1) v) :
    ((key = "CropLeft" ∨ key = "CropTop") →
      cropPercentage key v = qMul v (qOfInt 100)) ∧
    (¬ (key = "CropLeft" ∨ key = "CropTop") →
      cropPercentage key v = qMul (qSub (qOfInt 1) v) (qOfInt 100)) ∧
    (qLt ⟨1, 10⟩ (qAbs (cropPercentage key v)) →
      crop_line xmp_data key =
        some (some (String.mk (key.data.drop 4) ++ ": " ++
          formatFixed2 (cropPercentage key v) ++ "% cropped"))) ∧
    (¬ qLt ⟨1, 10⟩ (qAbs (cropPercentage key v)) →
      crop_line xmp_data key = some none) ∧
    crop_line [("CropLeft", "0.3333")] "CropLeft" =
      some (some "Left: 33.33% cropped") := by
  refine ⟨?_, ?_, ?_, ?_, by decide⟩
  · intro h
    rw [cropPercentage, if_pos h]
  · intro h
    rw [cropPercentage, if_neg h]
  · intro h
    rw [crop_line, hs]
    simp only [hv]
    rw [if_pos h]
  · intro h
    rw [crop_line, hs]
    simp only [hv]
    rw [if_neg h]

/-- Closed instance of C5 through the general path at `CropBottom = 0.25`:
the complementary percentage 75 is rendered. -/
theorem claim5_crop_witness :
    cropPercentage "CropBottom" ⟨25, 100⟩ = qMul (qSub (qOfInt 1) ⟨25, 100⟩) (qOfInt 100) ∧
    crop_line [("CropBottom", "0.25")] "CropBottom" =
      some (some (String.mk ("CropBottom".data.drop 4) ++ ": " ++
        formatFixed2 (cropPercentage "CropBottom" ⟨25, 100⟩) ++ "% cropped")) :=
  ⟨(claim5_crop [("CropBottom", "0.25")] "CropBottom" "0.25" ⟨25, 100⟩
      (by decide) (by decide) (by decide) (by decide) (by decide)).2.1 (by decide),
   (claim5_crop [("CropBottom", "0.25")] "CropBottom" "0.25" ⟨25, 100⟩
      (by decide) (by decide) (by decide) (by decide) (by decide)).2.2.1 (by decide)⟩

/-- Closed counterexample to C4 as stated: `PerspectiveScale = "100.5"` is
numeric, nonzero and not equal to 100, yet the code suppresses the line,
because the source compares `int(float(value)) == 100`, which holds for the
whole interval `[100, 101)`. -/
theorem claim4_counterexample :
    pyFloat? "100.5" = some ⟨1005, 10⟩ ∧
    ¬ qEq ⟨1005, 10⟩ (qOfInt 0) ∧
    ¬ qEq ⟨1005, 10⟩ (qOfInt 100) ∧
    "PerspectiveScale" ∈ POST_PROCESSING_KEYS ∧
    post_processing_line [("PerspectiveScale", "100.5")] "PerspectiveScale" = none := by
  refine ⟨by decide, by decide, by decide, by decide, by decide⟩

/-- Claim C4, amended: for an allow-listed key present in the XMP record,
a numeric value yields the line `{humanized key}: {raw value}` exactly when
it is nonzero and, for `PerspectiveScale`, its truncation `int(value)`
differs from 100 (suppression covers all of `[100, 101)`, not only the
value 100); a non-numeric value yields the line unless its lowercase form
is `0`, `false`, `none` or empty. -/
theorem claim4_post_processing (xmp_data : XmpDict) (key value : String)
    (hkey : key ∈ POST_PROCESSING_KEYS) (hv : dictGet xmp_data key = some value) :
    (∀ q, pyFloat? value = some q →
      (post_processing_line xmp_data key = some (displayKey key ++ ": " ++ value) ↔
        (¬ qEq q (qOfInt 0) ∧ ¬ (key = "PerspectiveScale" ∧ pyTrunc q = 100))) ∧
      (post_processing_line xmp_data key = none ∨
        post_processing_line xmp_data key = some (displayKey key ++ ": " ++ value))) ∧
    (pyFloat? value = none →
      (post_processing_line xmp_data key = some (displayKey key ++ ": " ++ value) ↔
        ¬ (pyLower value = "0" ∨ pyLower value = "false" ∨ pyLower value = "none" ∨
          pyLower value = ""))) ∧
    post_processing_line [("ToneCurveName2012", "Linear")] "ToneCurveName2012" =
      some ("Tone Curve Name" ++ ": " ++ "Linear") ∧
    post_processing_line [("Saturation", "false")] "Saturation" = none ∧
    post_processing_line [("Saturation", "0")] "Saturation" = none := by
  have hline : post_processing_line xmp_data key =
      match pyFloat? value with
      | some float_value =>
        if key = "PerspectiveScale" ∧ pyTrunc float_value = 100 then none
        else if ¬ qEq float_value (qOfInt 0) then some (displayKey key ++ ": " ++ value)
        else none
      | none =>
        if pyLower value = "0" ∨ pyLower value = "false" ∨ pyLower value = "none" ∨
            pyLower value = "" then none
        else some (displayKey key ++ ": " ++ value) := by
    rw [post_processing_line, hv]
  refine ⟨?_, ?_, by decide, by decide, by decide⟩
  · intro q hq
    rw [hline, hq]
    simp only
    by_cases hp : key = "PerspectiveScale" ∧ pyTrunc q = 100
    · rw [if_pos hp]
      refine ⟨⟨fun h => absurd h (by simp), fun h => absurd hp h.2⟩, Or.inl rfl⟩
    · rw [if_neg hp]
      by_cases hz : ¬ qEq q (qOfInt 0)
      · rw [if_pos hz]
        exact ⟨⟨fun _ => ⟨hz, hp⟩, fun _ => rfl⟩, Or.inr rfl⟩
      · rw [if_neg hz]
        refine ⟨⟨fun h => absurd h (by simp), fun h => absurd h.1 hz⟩, Or.inl rfl⟩
  · intro hq
    rw [hline, hq]
    simp only
    by_cases hs : pyLower value = "0" ∨ pyLower value = "false" ∨ pyLower value = "none" ∨
        pyLower value = ""
    · rw [if_pos hs]
      exact ⟨fun h => absurd h (by simp), fun h => absurd hs h⟩
    · rw [if_neg hs]
      exact ⟨fun _ => hs, fun _ => rfl⟩

/-- Closed instance of the amended C4: `Sharpness = "25"` is numeric and
nonzero, so its line is emitted; `PerspectiveScale = "100.0"` truncates to
100 and is suppressed. -/
theorem claim4_post_processing_witness :
    post_processing_line [("Sharpness", "25")] "Sharpness" =
      some (displayKey "Sharpness" ++ ": " ++ "25") ∧
    ¬ (post_processing_line [("PerspectiveScale", "100.0")] "PerspectiveScale" =
      some (displayKey "PerspectiveScale" ++ ": " ++ "100.0")) :=
  ⟨(((claim4_post_processing [("Sharpness", "25")] "Sharpness" "25"
      (by decide) (by decide)).1 ⟨25, 1⟩ (by decide)).1).mpr ⟨by decide, by decide⟩,
   fun h => by
    have h2 := (((claim4_post_processing [("PerspectiveScale", "100.0")]
      "PerspectiveScale" "100.0" (by decide) (by decide)).1 ⟨1000, 10⟩ (by decide)).1).mp h
    exact absurd ⟨rfl, by decide⟩ h2.2⟩

/-- The outcome of `Image.open(image_path)` followed by `img._getexif()`
on the EXIF path: the library raised (any `Exception`, caught by the
source), or returned no tag table, or returned a raw numeric-id tag
table. -/
inductive ExifReadResult where
  | raised (msg : String)
  | noExif
  | table (entries : List (Nat × PyVal))

/-- Lookup of a numeric tag id in the fixed `TAGS` table (`k in TAGS`,
`TAGS[k]`). -/
def tagLookup (tags : List (Nat × String)) (k : Nat) : Option String :=
  match tags with
  | [] => none
  | (k2, v) :: rest => if k2 = k then some v else tagLookup rest k

/-- The dict comprehension of `get_exif`:
`{TAGS[k]: v for k, v in exif.items() if k in TAGS}` — entries whose id is
known are renamed to the human-readable name, later duplicates
overwriting earlier ones. -/
def renameTags (tags : List (Nat × String)) (entries : List (Nat × PyVal)) :
    List (String × PyVal) :=
  entries.foldl (fun acc kv =>
    match tagLookup tags kv.1 with
    | some name => dictInsert acc name kv.2
    | none => acc) []

/-- `get_exif`: the whole body is wrapped in `try/except Exception`, so a
raised error is logged and `None` is returned; an absent or empty tag table
(`if exif:` is falsy) also gives `None`; otherwise the renamed restriction
of the table is returned. -/
def get_exif (tags : List (Nat × String)) : ExifReadResult → Option (List (String × PyVal))
  | .raised _ => none
  | .noExif => none
  | .table entries => if entries = [] then none else some (renameTags tags entries)

/-- An XMP XML element: local/qualified tag, attributes, text, children. -/
inductive Xml where
  | elem (tag : String) (attrs : List (String × String)) (text : Option String)
      (children : List Xml)

/-- Python `name.split("\x7d")[1]`: the text between the first and second
closing brace. -/
def splitBraceSecond (s : String) : String :=
  String.mk (((s.data.dropWhile (fun c => !(c == '\x7d'))).drop 1).takeWhile
    (fun c => !(c == '\x7d')))

mutual

/-- The flattening loop of `get_xmp_metadata` over `root.iter()` (document
order): for each element whose tag is namespace-qualified, the stripped
text (when truthy) is stored under the local tag name; every attribute is
stored under its (namespace-stripped) name; `dict` assignment overwrites. -/
def xmlFold (acc : List (String × String)) : Xml → List (String × String)
  | .elem tag attrs text children =>
    let acc1 :=
      if tag.data.any (fun c => c == '\x7d') then
        match text with
        | some t => if pyStrip t ≠ "" then dictInsert acc (splitBraceSecond tag) (pyStrip t) else acc
        | none => acc
      else acc
    let acc2 := attrs.foldl (fun a p =>
      if p.1.data.any (fun c => c == '\x7d') then dictInsert a (splitBraceSecond p.1) p.2
      else dictInsert a p.1 p.2) acc1
    xmlFoldList acc2 children

/-- Fold over the children of an element, in order. -/
def xmlFoldList (acc : List (String × String)) : List Xml → List (String × String)
  | [] => acc
  | x :: xs => xmlFoldList (xmlFold acc x) xs

end

/-- Python `bytes.find`, successful case: the first index at which the
pattern occurs. -/
def strFind? : List Char → List Char → Option Nat
  | [], pat => if pat.isPrefixOf ([] : List Char) then some 0 else none
  | c :: t, pat =>
    if pat.isPrefixOf (c :: t) then some 0
    else
      match strFind? t pat with
      | some i => some (i + 1)
      | none => none

/-- Python `bytes.find`: the first occurrence index, `-1` when absent. -/
def pyFind (hay pat : List Char) : Int :=
  match strFind? hay pat with
  | some i => Int.ofNat i
  | none => -1

/-- Clamp a Python slice bound (negative indices count from the end). -/
def pySliceIdx (len : Nat) (i : Int) : Nat :=
  if i < 0 then (if (len : Int) + i < 0 then 0 else ((len : Int) + i).toNat)
  else min i.toNat len

/-- Python `l[a : b]`. -/
def pySlice (l : List Char) (a b : Int) : List Char :=
  (l.take (pySliceIdx l.length b)).drop (pySliceIdx l.length a)

/-- The XMP namespace marker that an APP1 payload must start with. -/
def xmpMarker : String := "http://ns.adobe.com/xap/1.0/"

/-- `xmp_data[xmp_start : xmp_end + 12].decode("utf-8")`: the slice of the
payload from `<x:xmpmeta` through `</x:xmpmeta` plus one character (byte
payloads are modelled as strings, so UTF-8 decoding is the identity). -/
def extractXmpStr (content : String) : String :=
  String.mk (pySlice content.data
    (pyFind content.data "<x:xmpmeta".data)
    (pyFind content.data "</x:xmpmeta".data + 12))

/-- The loop test of `get_xmp_metadata`: an `APP1` segment whose payload
starts with the XMP namespace marker. -/
def isXmpSegment (p : String × String) : Bool :=
  p.1 == "APP1" && xmpMarker.data.isPrefixOf p.2.data

/-- `get_xmp_metadata`, parameterised by the external XML parser
(`ET.fromstring`), whose failure is an exception that the source does not
catch: scan `img.applist` for the first XMP segment; with none, return
`None`; otherwise slice out the `<x:xmpmeta>` document, parse it (a parse
error propagates) and flatten the tree. -/
def get_xmp_metadata (parse : String → Except String Xml)
    (applist : List (String × String)) :
    Except String (Option (List (String × String))) :=
  match applist.find? isXmpSegment with
  | none => Except.ok none
  | some (_, content) =>
    if content.data = [] then Except.ok none
    else
      match parse (extractXmpStr content) with
      | Except.error e => Except.error e
      | Except.ok root => Except.ok (some (xmlFold [] root))

theorem dictInsert_mem {β : Type} (d : List (String × β)) (k : String) (v : β)
    (p : String × β) (h : p ∈ dictInsert d k v) : p = (k, v) ∨ p ∈ d := by
  induction d with
  | nil =>
    rw [dictInsert] at h
    simp at h
    exact Or.inl h
  | cons q rest ih =>
    obtain ⟨k2, v2⟩ := q
    rw [dictInsert] at h
    by_cases hk : k2 = k
    · rw [if_pos hk] at h
      rcases List.mem_cons.mp h with h1 | h2
      · exact Or.inl h1
      · exact Or.inr (by simp [h2])
    · rw [if_neg hk] at h
      rcases List.mem_cons.mp h with h1 | h2
      · exact Or.inr (by simp [h1])
      · rcases ih h2 with h3 | h4
        · exact Or.inl h3
        · exact Or.inr (by simp [h4])

theorem renameTags_aux (tags : List (Nat × String)) (entries : List (Nat × PyVal)) :
    ∀ (acc : List (String × PyVal)) (p : String × PyVal),
      p ∈ entries.foldl (fun acc kv =>
        match tagLookup tags kv.1 with
        | some name => dictInsert acc name kv.2
        | none => acc) acc →
      p ∈ acc ∨ ∃ k, tagLookup tags k = some p.1 ∧ (k, p.2) ∈ entries := by
  induction entries with
  | nil => intro acc p h; exact Or.inl h
  | cons kv entries ih =>
    intro acc p h
    rw [List.foldl_cons] at h
    rcases ih _ p h with h1 | ⟨k, hk, hke⟩
    · cases hl : tagLookup tags kv.1 with
      | none => rw [hl] at h1; exact Or.inl h1
      | some name =>
        rw [hl] at h1
        rcases dictInsert_mem acc name kv.2 p h1 with h2 | h3
        · subst h2
          exact Or.inr ⟨kv.1, hl, by simp⟩
        · exact Or.inl h3
    · exact Or.inr ⟨k, hk, by simp [hke]⟩

/-- Claim C8: `get_exif` never propagates a failure — an exception from
opening or decoding is caught and `None` is returned, as it is for an
absent or empty tag table; on success the result is the table restricted
to ids in the lookup table and keyed by their human-readable names. -/
theorem claim8_get_exif (tags : List (Nat × String)) :
    (∀ msg, get_exif tags (ExifReadResult.raised msg) = none) ∧
    get_exif tags ExifReadResult.noExif = none ∧
    get_exif tags (ExifReadResult.table []) = none ∧
    (∀ entries, entries ≠ [] →
      get_exif tags (ExifReadResult.table entries) = some (renameTags tags entries) ∧
      ∀ p ∈ renameTags tags entries,
        ∃ k, tagLookup tags k = some p.1 ∧ (k, p.2) ∈ entries) := by
  refine ⟨fun msg => rfl, rfl, by rw [get_exif, if_pos rfl], ?_⟩
  intro entries hne
  refine ⟨by rw [get_exif, if_neg hne], ?_⟩
  intro p hp
  rcases renameTags_aux tags entries [] p hp with h1 | h2
  · exact absurd h1 (by simp)
  · exact h2

/-- Closed instance of C8, mirroring the repository test: ids 271/272 map
to `Make`/`Model`, and a raised decode error yields `None`. -/
theorem claim8_get_exif_witness :
    get_exif [(271, "Make"), (272, "Model")]
        (ExifReadResult.table [(271, PyVal.str "Canon"), (272, PyVal.str "EOS 200D")]) =
      some [("Make", PyVal.str "Canon"), ("Model", PyVal.str "EOS 200D")] ∧
    get_exif [(271, "Make"), (272, "Model")] (ExifReadResult.raised "broken file") = none := by
  constructor
  · rw [((claim8_get_exif [(271, "Make"), (272, "Model")]).2.2.2
      [(271, PyVal.str "Canon"), (272, PyVal.str "EOS 200D")] (by decide)).1]
    decide
  · exact (claim8_get_exif [(271, "Make"), (272, "Model")]).1 "broken file"

/-- Claim C9: `get_xmp_metadata` returns `None` when no APP1 segment starts
with the XMP namespace marker; when such a segment exists and its embedded
XML is malformed, the parser's exception propagates to the caller — the
intentional asymmetry with the EXIF path. -/
theorem claim9_get_xmp (parse : String → Except String Xml)
    (applist : List (String × String)) :
    (applist.find? isXmpSegment = none →
      get_xmp_metadata parse applist = Except.ok none) ∧
    (∀ seg content e, applist.find? isXmpSegment = some (seg, content) →
      parse (extractXmpStr content) = Except.error e →
      get_xmp_metadata parse applist = Except.error e) ∧
    (∀ seg content root, applist.find? isXmpSegment = some (seg, content) →
      parse (extractXmpStr content) = Except.ok root →
      get_xmp_metadata parse applist = Except.ok (some (xmlFold [] root))) := by
  have hne : ∀ seg content, applist.find? isXmpSegment = some (seg, content) →
      content.data ≠ [] := by
    intro seg content hfind
    have hp := List.find?_some hfind
    rw [isXmpSegment] at hp
    simp only [Bool.and_eq_true] at hp
    intro hnil
    rw [hnil] at hp
    exact absurd hp.2 (by decide)
  refine ⟨?_, ?_, ?_⟩
  · intro h
    rw [get_xmp_metadata, h]
  · intro seg content e hfind hparse
    rw [get_xmp_metadata, hfind]
    simp only [if_neg (hne seg content hfind)]
    rw [hparse]
  · intro seg content root hfind hparse
    rw [get_xmp_metadata, hfind]
    simp only [if_neg (hne seg content hfind)]
    rw [hparse]

/-- Closed instance of C9: with a parser that rejects its input, the
error propagates when an XMP segment is present; without such a segment
the result is the absent sentinel. -/
theorem claim9_get_xmp_witness :
    get_xmp_metadata (fun _ => Except.error "malformed XML")
        [("APP0", "zzz"), ("APP1", xmpMarker ++ "<x:xmpmeta/>")] =
      Except.error "malformed XML" ∧
    get_xmp_metadata (fun _ => Except.error "malformed XML") [("APP0", "zzz")] =
      Except.ok none :=
  ⟨(claim9_get_xmp (fun _ => Except.error "malformed XML")
      [("APP0", "zzz"), ("APP1", xmpMarker ++ "<x:xmpmeta/>")]).2.1
      "APP1" (xmpMarker ++ "<x:xmpmeta/>") "malformed XML" (by decide) rfl,
   (claim9_get_xmp (fun _ => Except.error "malformed XML") [("APP0", "zzz")]).1 (by decide)⟩

end MetadataExtractor
